import Mathlib

/-!
Verification development for the bank-accounts single-page application
(`src/app.js`, `src/app_backup.js`).  The account normalization pipeline,
the preference store (theme, favorites, schema-version migration) and the
filter engine are embedded shallowly: browser `localStorage` becomes an
association list of string keys to string values, JavaScript values that
flow through `JSON.parse` and loose property access become the inductive
`JsValue`, and every function is a pure, executable Lean definition
translated clause by clause from the source.
-/

namespace App

/-- JavaScript values as they appear in this program: the JSON data types
plus `undefined`, which property access on a missing key produces.
JSON number literals are kept as their source text (`num "1.5"`), so no
floating-point semantics is needed; the program only ever tests numbers
for truthiness and never computes with them. -/
inductive JsValue where
  | undefined : JsValue
  | null : JsValue
  | bool : Bool → JsValue
  | num : String → JsValue
  | str : String → JsValue
  | arr : List JsValue → JsValue
  | obj : List (String × JsValue) → JsValue
deriving Repr

/-- A JSON number literal denotes zero exactly when every digit of its
mantissa is `0` (sign and exponent cannot make a zero mantissa nonzero). -/
def numLitIsZero (lit : String) : Bool :=
  let cs := match lit.toList with
    | '-' :: r => r
    | cs => cs
  let mant := cs.takeWhile (fun c => c.isDigit || c = '.')
  mant.all (fun c => c = '0' || c = '.')

/-- JavaScript truthiness for the values of `JsValue`:
`undefined`, `null`, `false`, zero and the empty string are falsy. -/
def jsTruthy : JsValue → Bool
  | .undefined => false
  | .null => false
  | .bool b => b
  | .num lit => !numLitIsZero lit
  | .str s => s != ""
  | .arr _ => true
  | .obj _ => true

/-- JavaScript `a || b`: `a` when truthy, otherwise `b`. -/
def jsOr (a b : JsValue) : JsValue :=
  if jsTruthy a then a else b

/-- A raw record: a JavaScript object, i.e. an ordered list of
key/value properties. -/
abbrev RawRecord := List (String × JsValue)

/-- Property access `raw[k]`: the first property named `k`, or
`undefined` when the object has no such property. -/
def jsGet (raw : RawRecord) (k : String) : JsValue :=
  match raw.find? (fun kv => kv.1 == k) with
  | some kv => kv.2
  | none => .undefined

def JsValue.isArr : JsValue → Bool
  | .arr _ => true
  | _ => false

def JsValue.isStr : JsValue → Bool
  | .str _ => true
  | _ => false

def JsValue.isUndef : JsValue → Bool
  | .undefined => true
  | _ => false

def JsValue.isNull : JsValue → Bool
  | .null => true
  | _ => false

/-! ### A model of `JSON.parse`

A recursive-descent parser over `List Char`, structurally recursive on a
fuel argument so that every definition reduces inside the kernel.  It
accepts the JSON grammar (with the restriction that `\u` escapes naming
surrogate code points are rejected rather than paired). -/

def jsonWs (c : Char) : Bool :=
  c = ' ' || c = '\t' || c = '\n' || c = '\r'

def skipWs : List Char → List Char
  | [] => []
  | c :: cs => if jsonWs c then skipWs cs else c :: cs

/-- Split a leading run of decimal digits from the rest. -/
def takeDigits : List Char → List Char × List Char
  | [] => ([], [])
  | c :: cs =>
    if c.isDigit then
      let (d, r) := takeDigits cs
      (c :: d, r)
    else ([], c :: cs)

def hexDigitVal (c : Char) : Option Nat :=
  if '0' ≤ c ∧ c ≤ '9' then some (c.toNat - '0'.toNat)
  else if 'a' ≤ c ∧ c ≤ 'f' then some (c.toNat - 'a'.toNat + 10)
  else if 'A' ≤ c ∧ c ≤ 'F' then some (c.toNat - 'A'.toNat + 10)
  else none

/-- Body of a JSON string after the opening quote: returns the decoded
characters and the input after the closing quote. -/
def parseStrAux : Nat → List Char → Option (List Char × List Char)
  | 0, _ => none
  | _ + 1, [] => none
  | fuel + 1, c :: cs =>
    if c = '"' then some ([], cs)
    else if c = '\\' then
      match cs with
      | [] => none
      | e :: cs2 =>
        let esc : Option (Char × List Char) :=
          if e = '"' then some ('"', cs2)
          else if e = '\\' then some ('\\', cs2)
          else if e = '/' then some ('/', cs2)
          else if e = 'b' then some (Char.ofNat 8, cs2)
          else if e = 'f' then some (Char.ofNat 12, cs2)
          else if e = 'n' then some ('\n', cs2)
          else if e = 'r' then some ('\r', cs2)
          else if e = 't' then some ('\t', cs2)
          else if e = 'u' then
            match cs2 with
            | h1 :: h2 :: h3 :: h4 :: cs3 =>
              match hexDigitVal h1, hexDigitVal h2, hexDigitVal h3, hexDigitVal h4 with
              | some a, some b, some c3, some d =>
                let n := ((a * 16 + b) * 16 + c3) * 16 + d
                if n < 0xd800 ∨ 0xdfff < n then some (Char.ofNat n, cs3) else none
              | _, _, _, _ => none
            | _ => none
          else none
        match esc with
        | some (ch, rest) =>
          match parseStrAux fuel rest with
          | some (s, r) => some (ch :: s, r)
          | none => none
        | none => none
    else if c.toNat < 32 then none
    else
      match parseStrAux fuel cs with
      | some (s, r) => some (c :: s, r)
      | none => none

/-- A JSON number literal (kept as text): optional sign, integer part
without leading zeros, optional fraction, optional exponent. -/
def parseNum (cs : List Char) : Option (String × List Char) :=
  let (sgn, cs1) : List Char × List Char :=
    match cs with
    | '-' :: r => (['-'], r)
    | _ => ([], cs)
  let (ds, cs2) := takeDigits cs1
  if ds.isEmpty then none
  else if ds.length > 1 ∧ ds.headD '0' = '0' then none
  else
    let fracPart : Option (List Char × List Char) :=
      match cs2 with
      | '.' :: r =>
        let (fd, r2) := takeDigits r
        if fd.isEmpty then none else some ('.' :: fd, r2)
      | _ => some ([], cs2)
    match fracPart with
    | none => none
    | some (frac, cs3) =>
      let expPart : Option (List Char × List Char) :=
        match cs3 with
        | c :: r =>
          if c = 'e' ∨ c = 'E' then
            let (es, r1) : List Char × List Char :=
              match r with
              | s :: r' => if s = '+' ∨ s = '-' then ([s], r') else ([], r)
              | [] => ([], [])
            let (ed, r2) := takeDigits r1
            if ed.isEmpty then none else some (c :: (es ++ ed), r2)
          else some ([], c :: r)
        | [] => some ([], [])
      match expPart with
      | none => none
      | some (ex, cs4) => some (String.mk (sgn ++ ds ++ frac ++ ex), cs4)

/-- The parser's mode: a single value, the element list of an array after
its `[`, or the field list of an object after its opening brace.  A single
mode-indexed function keeps the recursion structural on the fuel. -/
inductive PMode where
  | value : PMode
  | elems : List JsValue → PMode
  | fields : List (String × JsValue) → PMode

def braceL : Char := Char.ofNat 123
def braceR : Char := Char.ofNat 125

def parseCore : Nat → PMode → List Char → Option (JsValue × List Char)
  | 0, _, _ => none
  | fuel + 1, .value, cs =>
    match skipWs cs with
    | [] => none
    | c :: rest =>
      if c = 'n' then
        match rest with
        | 'u' :: 'l' :: 'l' :: r => some (.null, r)
        | _ => none
      else if c = 't' then
        match rest with
        | 'r' :: 'u' :: 'e' :: r => some (.bool true, r)
        | _ => none
      else if c = 'f' then
        match rest with
        | 'a' :: 'l' :: 's' :: 'e' :: r => some (.bool false, r)
        | _ => none
      else if c = '"' then
        match parseStrAux (rest.length + 1) rest with
        | some (s, r) => some (.str (String.mk s), r)
        | none => none
      else if c = '[' then
        match skipWs rest with
        | ']' :: r => some (.arr [], r)
        | cs2 => parseCore fuel (.elems []) cs2
      else if c = braceL then
        match skipWs rest with
        | c2 :: r => if c2 = braceR then some (.obj [], r) else parseCore fuel (.fields []) (c2 :: r)
        | [] => none
      else if c = '-' ∨ c.isDigit then
        match parseNum (c :: rest) with
        | some (lit, r) => some (.num lit, r)
        | none => none
      else none
  | fuel + 1, .elems acc, cs =>
    match parseCore fuel .value cs with
    | some (v, rest) =>
      match skipWs rest with
      | ',' :: r => parseCore fuel (.elems (v :: acc)) r
      | ']' :: r => some (.arr (v :: acc).reverse, r)
      | _ => none
    | none => none
  | fuel + 1, .fields acc, cs =>
    match skipWs cs with
    | '"' :: rest =>
      match parseStrAux (rest.length + 1) rest with
      | some (key, r1) =>
        match skipWs r1 with
        | ':' :: r2 =>
          match parseCore fuel .value r2 with
          | some (v, r3) =>
            match skipWs r3 with
            | ',' :: r4 => parseCore fuel (.fields ((String.mk key, v) :: acc)) r4
            | c :: r4 =>
              if c = braceR then some (.obj ((String.mk key, v) :: acc).reverse, r4) else none
            | [] => none
          | none => none
        | _ => none
      | none => none
    | _ => none

/-- Model of `JSON.parse`: parse one value and require only whitespace after it;
`none` models the thrown `SyntaxError`. -/
def jsonParse (s : String) : Option JsValue :=
  match parseCore (2 * s.length + 8) .value s.toList with
  | some (v, rest) => if (skipWs rest).isEmpty then some v else none
  | none => none

/-! ### Configuration constants (`CONFIG` in `app.js`) -/

def FAVORITES_KEY : String := "accounts:favs"
def THEME_KEY : String := "accounts:theme"
def VERSION_KEY : String := "accounts:version"
def APP_VERSION : String := "2.0"
def DEFAULT_THEME : String := "light"

/-! ### The persistent key-value store (`localStorage`)

`localStorage` is modelled as an association list with unique keys.
`getItem` returns `none` for an absent key (JavaScript `null`); writes are
modelled as always succeeding (the quota-exceeded failure mode is outside
the claims proved here). -/

abbrev Store := List (String × String)

def getItem : Store → String → Option String
  | [], _ => none
  | (k', v) :: rest, k => if k' = k then some v else getItem rest k

def setItem : Store → String → String → Store
  | [], k, v => [(k, v)]
  | (k', v') :: rest, k, v =>
    if k' = k then (k, v) :: rest else (k', v') :: setItem rest k v

def removeItem : Store → String → Store
  | [], _ => []
  | (k', v') :: rest, k =>
    if k' = k then removeItem rest k else (k', v') :: removeItem rest k

/-! ### Theme initialization (`initializeTheme`, app.js 288-322) -/

/-- Function `initializeTheme`: the theme adopted at startup.  `savedTheme` is
`localStorage.getItem(CONFIG.THEME_KEY)`; `systemPrefersDark` is the
`prefers-color-scheme: dark` media-query signal, consulted only when
`CONFIG.DEFAULT_THEME` is `"system"`.  The source computes
`currentTheme = savedTheme || defaultTheme`: any truthy stored string is
adopted as-is. -/
def initializeTheme (savedTheme : Option String) (systemPrefersDark : Bool) : String :=
  let defaultTheme :=
    if DEFAULT_THEME = "system" then
      if systemPrefersDark then "dark" else "light"
    else DEFAULT_THEME
  match savedTheme with
  | none => defaultTheme
  | some s => if s = "" then defaultTheme else s

/-! ### Favorites (`loadFavorites` / `toggleFavorite`, app.js 488-531) -/

/-- Function `loadFavorites`: `stored ? JSON.parse(stored) : []`, with the
surrounding `try`/`catch` turning a parse error into `[]`.  The result is
whatever JSON value the stored string parses to — the source performs no
shape check — and the store is only read, never written. -/
def loadFavorites (stored : Option String) : JsValue :=
  match stored with
  | none => .arr []
  | some s =>
    if s = "" then .arr []
    else
      match jsonParse s with
      | some v => v
      | none => .arr []

/-- Variant of `loadFavorites` acting on the whole store, reading
`CONFIG.FAVORITES_KEY`. -/
def loadFavoritesFromStore (st : Store) : JsValue :=
  loadFavorites (getItem st FAVORITES_KEY)

/-- Model of `favorites.splice(favorites.indexOf(id), 1)`: remove the first
occurrence of an element. -/
def removeFirst : List String → String → List String
  | [], _ => []
  | x :: xs, a => if x = a then xs else x :: removeFirst xs a

/-- Function `toggleFavorite`: remove the ID when present (first occurrence),
append it when absent. -/
def toggleFavorite (favorites : List String) (accountId : String) : List String :=
  if favorites.contains accountId then removeFirst favorites accountId
  else favorites ++ [accountId]

/-! ### Account normalization (`normalizeAccount`, app.js 429-441) -/

/-- The object produced by `normalizeAccount`.  Fields hold `JsValue`s:
the source copies whatever raw value wins its `||` chain, without
coercing it to a string. -/
structure NormAccount where
  id : JsValue
  bank : JsValue
  title : JsValue
  acc_no : JsValue
  iban : JsValue
  currency : JsValue
  purpose : JsValue
  note : JsValue
  logo : JsValue
deriving Repr

/-- Function `normalizeAccount`: each field is the first truthy value of its alias
chain, else the default.  `randId` stands for the `String(Math.random())`
fallback identifier; `jsOr` is associated to the right, which selects the
same value as JavaScript's left-associated `||`. -/
def normalizeAccount (raw : RawRecord) (randId : String) : NormAccount :=
  { id := jsOr (jsGet raw "id") (jsOr (jsGet raw "ID") (.str randId))
    bank := jsOr (jsGet raw "Bank") (jsOr (jsGet raw "bank") (.str "Unknown Bank"))
    title := jsOr (jsGet raw "Title") (jsOr (jsGet raw "title") (.str "Account"))
    acc_no := jsOr (jsGet raw "acc_no")
      (jsOr (jsGet raw "acct_no") (jsOr (jsGet raw "account_number") (.str "")))
    iban := jsOr (jsGet raw "iban") (jsOr (jsGet raw "IBAN") (.str ""))
    currency := jsOr (jsGet raw "currency") (jsOr (jsGet raw "Currency") (.str "PKR"))
    purpose := jsOr (jsGet raw "purpose") (jsOr (jsGet raw "Purpose") (.str "General"))
    note := jsOr (jsGet raw "note") (jsOr (jsGet raw "Note") (.str ""))
    logo := jsOr (jsGet raw "logo") .null }

/-- Every canonical field of a normalized account is populated: neither
`undefined` nor `null` (the optional `logo` is exempt). -/
def fieldsPresent (a : NormAccount) : Bool :=
  !a.id.isUndef && !a.id.isNull &&
  !a.bank.isUndef && !a.bank.isNull &&
  !a.title.isUndef && !a.title.isNull &&
  !a.acc_no.isUndef && !a.acc_no.isNull &&
  !a.iban.isUndef && !a.iban.isNull &&
  !a.currency.isUndef && !a.currency.isNull &&
  !a.purpose.isUndef && !a.purpose.isNull &&
  !a.note.isUndef && !a.note.isNull

def accountsAllPresent (l : List NormAccount) : Bool :=
  l.all fieldsPresent

/-! ### Data loading (`loadData` / `getSampleData`, app.js 399-479) -/

/-- The embedded fallback dataset (`getSampleData`), transcribed from the
source: capitalized `Bank`/`Title` keys, no `note` key, no lowercase
`bank`/`title` keys. -/
def getSampleData : List RawRecord :=
  [ [("Bank", .str "Faysal Bank"), ("Title", .str "Al-Rahman Trading Co."),
     ("acc_no", .str "4587123900456712"), ("iban", .str "PK36FAYS0045871239004567"),
     ("id", .str "1"), ("currency", .str "PKR"), ("purpose", .str "Business"),
     ("logo", .str "./assets/Faysal_Bank.svg")],
    [("Bank", .str "Allied Bank"), ("Title", .str "Bilal & Sons Electronics"),
     ("acc_no", .str "7890123456789012"), ("iban", .str "PK74ABPA0078901234567890"),
     ("id", .str "2"), ("currency", .str "PKR"), ("purpose", .str "Business"),
     ("logo", .str "./assets/allied_bank.svg")],
    [("Bank", .str "JazzCash"), ("Title", .str "Ayesha Fatima"),
     ("acc_no", .str "03211234567"), ("iban", .str "PK15JCMA0412900321123456"),
     ("id", .str "3"), ("currency", .str "PKR"), ("purpose", .str "Mobile Wallet"),
     ("logo", .str "./assets/jazzcash.svg")] ]

/-- Property access on an arbitrary JavaScript value: `null` and
`undefined` throw a `TypeError` (`none`); a primitive or array simply has
none of the account keys, so it behaves as an empty record. -/
def recordOf : JsValue → Option RawRecord
  | .null => none
  | .undefined => none
  | .obj kvs => some kvs
  | _ => some []

/-- Model of `rawRecords.map(normalizeAccount)` with a supply `rnd i` of random
fallback IDs, one per position. -/
def normalizeAll : List RawRecord → (Nat → String) → List NormAccount
  | [], _ => []
  | r :: rs, rnd => normalizeAccount r (rnd 0) :: normalizeAll rs (fun i => rnd (i + 1))

/-- Model of `data.map(normalizeAccount)` over parsed JSON array elements; `none`
when any element is `null`/`undefined`, in which case the thrown
`TypeError` discards the whole mapping. -/
def normalizeAllV : List JsValue → (Nat → String) → Option (List NormAccount)
  | [], _ => some []
  | v :: vs, rnd =>
    match recordOf v with
    | none => none
    | some raw =>
      match normalizeAllV vs (fun i => rnd (i + 1)) with
      | some accs => some (normalizeAccount raw (rnd 0) :: accs)
      | none => none

/-- The observable outcome of `fetch(url)` + `response.json()`:
rejection, a non-ok status, a body that is not valid JSON, or a parsed
JSON body. -/
inductive FetchOutcome where
  | rejected : FetchOutcome
  | badStatus : Nat → FetchOutcome
  | jsonError : FetchOutcome
  | jsonOk : JsValue → FetchOutcome

/-- The outcomes on which `loadData`'s `try` block throws before
producing accounts from the fetched body: rejection, `!response.ok`,
a JSON syntax error, or a top-level value that is not an array. -/
def FetchOutcome.isFailure : FetchOutcome → Bool
  | .rejected => true
  | .badStatus _ => true
  | .jsonError => true
  | .jsonOk v => !v.isArr

/-- Function `loadData` (app.js): on success the fetched array is normalized; on
any thrown error the catch block substitutes
`getSampleData().map(normalizeAccount)`. -/
def loadData (outcome : FetchOutcome) (rnd : Nat → String) : List NormAccount :=
  match outcome with
  | .jsonOk (.arr elems) =>
    match normalizeAllV elems rnd with
    | some accs => accs
    | none => normalizeAll getSampleData rnd
  | _ => normalizeAll getSampleData rnd

/-! ### The older duplicate (`app_backup.js` 108-153) -/

/-- Function `normalizeAccount` in `app_backup.js`: identical alias chains but no
`logo` field; rendered here as the JavaScript object it builds. -/
def normalizeAccountBackup (raw : RawRecord) (randId : String) : RawRecord :=
  [ ("id", jsOr (jsGet raw "id") (jsOr (jsGet raw "ID") (.str randId))),
    ("bank", jsOr (jsGet raw "Bank") (jsOr (jsGet raw "bank") (.str "Unknown Bank"))),
    ("title", jsOr (jsGet raw "Title") (jsOr (jsGet raw "title") (.str "Account"))),
    ("acc_no", jsOr (jsGet raw "acc_no")
      (jsOr (jsGet raw "acct_no") (jsOr (jsGet raw "account_number") (.str "")))),
    ("iban", jsOr (jsGet raw "iban") (jsOr (jsGet raw "IBAN") (.str ""))),
    ("currency", jsOr (jsGet raw "currency") (jsOr (jsGet raw "Currency") (.str "PKR"))),
    ("purpose", jsOr (jsGet raw "purpose") (jsOr (jsGet raw "Purpose") (.str "General"))),
    ("note", jsOr (jsGet raw "note") (jsOr (jsGet raw "Note") (.str ""))) ]

def normalizeAllBackup : List JsValue → (Nat → String) → Option (List RawRecord)
  | [], _ => some []
  | v :: vs, rnd =>
    match recordOf v with
    | none => none
    | some raw =>
      match normalizeAllBackup vs (fun i => rnd (i + 1)) with
      | some accs => some (normalizeAccountBackup raw (rnd 0) :: accs)
      | none => none

/-- Function `loadData` in `app_backup.js`: the catch block assigns
`allAccounts = getSampleData()` — the raw sample records, WITHOUT the
`.map(normalizeAccount)` the success path applies. -/
def loadDataBackup (outcome : FetchOutcome) (rnd : Nat → String) : List RawRecord :=
  match outcome with
  | .jsonOk (.arr elems) =>
    match normalizeAllBackup elems rnd with
    | some accs => accs
    | none => getSampleData
  | _ => getSampleData

/-! ### Version migration (`migrateLocalStorageData`, app.js 145-279) -/

/-- JavaScript string `<`: lexicographic comparison of code units. -/
def jsStrLtChars : List Char → List Char → Bool
  | [], [] => false
  | [], _ :: _ => true
  | _ :: _, [] => false
  | a :: as, b :: bs =>
    if a < b then true
    else if b < a then false
    else jsStrLtChars as bs

def jsStrLt (a b : String) : Bool :=
  jsStrLtChars a.data b.data

/-- The obsolete v1 keys the migration deletes. -/
def v1Keys : List String :=
  ["accountsApp:settings", "accountsApp:preferences", "accountsApp:cache",
   "accounts:cache", "accounts:settings"]

/-- The v1→v2 body (app.js 180-231): validate the stored theme (remove
unless exactly `"light"`/`"dark"`), validate the stored favorites as
parsable JSON whose value is an array (remove otherwise), then delete the
obsolete v1 keys. -/
def v1Migration (st : Store) : Store :=
  let st1 :=
    match getItem st THEME_KEY with
    | some t => if t = "light" ∨ t = "dark" then st else removeItem st THEME_KEY
    | none => removeItem st THEME_KEY
  let st2 :=
    match getItem st FAVORITES_KEY with
    | some f =>
      if f = "" then st1
      else
        match jsonParse f with
        | some v => if v.isArr then st1 else removeItem st1 FAVORITES_KEY
        | none => removeItem st1 FAVORITES_KEY
    | none => st1
  v1Keys.foldl removeItem st2

/-- The `try` block of `migrateLocalStorageData`: first run (absent or
empty stored version) writes the current version; an equal stored version
returns untouched; an older version (JavaScript string `<` against
`"2.0"`) runs `v1Migration`; any other differing version skips it; both
migration paths finish by writing the current version. -/
def migrateNormal (st : Store) : Store :=
  match getItem st VERSION_KEY with
  | none => setItem st VERSION_KEY APP_VERSION
  | some v =>
    if v = "" then setItem st VERSION_KEY APP_VERSION
    else if v = APP_VERSION then st
    else
      let st1 := if jsStrLt v "2.0" then v1Migration st else st
      setItem st1 VERSION_KEY APP_VERSION

/-- The `catch` block (app.js 242-278), applied to whatever store state
the thrown exception left behind: snapshot theme/favorites, delete every
`accounts:`-prefixed key except those two, restore the snapshot values
when valid, and force-write the current version. -/
def migrateCatch (st : Store) : Store :=
  let theme := getItem st THEME_KEY
  let favs := getItem st FAVORITES_KEY
  let st1 := st.filter
    (fun kv => !(kv.1.startsWith "accounts:" && kv.1 != THEME_KEY && kv.1 != FAVORITES_KEY))
  let st2 :=
    match theme with
    | some t => if t = "light" ∨ t = "dark" then setItem st1 THEME_KEY t else st1
    | none => st1
  let st3 :=
    match favs with
    | some f =>
      if f = "" then st2
      else
        match jsonParse f with
        | some _ => setItem st2 FAVORITES_KEY f
        | none => st2
    | none => st2
  setItem st3 VERSION_KEY APP_VERSION

/-- Function `migrateLocalStorageData`: the whole routine.  `exc = none` is an
exception-free run of the `try` block; `exc = some mid` models an
exception thrown while the store held the intermediate state `mid`, which
the `catch` block then repairs. -/
def migrateLocalStorageData (st : Store) (exc : Option Store) : Store :=
  match exc with
  | none => migrateNormal st
  | some mid => migrateCatch mid

/-! ### The filter engine (`applyFilters`, app.js 967-1008)

The filter consumes canonical accounts, whose fields §3 of the data model
guarantees to be strings, so the account record is embedded with string
fields here. -/

structure Account where
  id : String
  bank : String
  title : String
  acc_no : String
  iban : String
  currency : String
  purpose : String
  note : String
  logo : Option String
deriving Repr, DecidableEq

/-- The `currentFilters` record. -/
structure Filters where
  search : String
  currency : String
  purpose : String
  favoritesOnly : Bool
deriving Repr, DecidableEq

/-- Model of `String.prototype.toLowerCase`, restricted to the ASCII letters that
appear in this data. -/
def jsToLower (s : String) : String :=
  ⟨s.data.map Char.toLower⟩

/-- Does `needle` occur as a contiguous run inside `hay`?
(`String.prototype.includes`.) -/
def charsInfix (needle : List Char) : List Char → Bool
  | [] => needle.isEmpty
  | c :: rest => needle.isPrefixOf (c :: rest) || charsInfix needle rest

def strIncludes (hay needle : String) : Bool :=
  charsInfix needle.data hay.data

/-- The `searchableFields` array of `applyFilters`. -/
def searchableFields (account : Account) : List String :=
  [account.bank, account.title, account.acc_no, account.iban,
   account.purpose, account.note]

/-- Model of `favorites.includes(accountId)` (`isFavorite`). -/
def isFavorite (favorites : List String) (accountId : String) : Bool :=
  favorites.contains accountId

/-- The predicate of `allAccounts.filter(...)`: the source's sequence of
guarded early `return false`s, written as the conjunction it computes.
An empty field is falsy, so it is skipped by `field && field.toLowerCase()
.includes(searchTerm)`. -/
def accountMatches (filters : Filters) (favorites : List String) (account : Account) : Bool :=
  (filters.search == "" ||
    (searchableFields account).any
      (fun field => field != "" && strIncludes (jsToLower field) (jsToLower filters.search))) &&
  (filters.currency == "all" || account.currency == filters.currency) &&
  (filters.purpose == "all" || account.purpose == filters.purpose) &&
  (!filters.favoritesOnly || isFavorite favorites account.id)

/-- Function `applyFilters`: the filtered account list. -/
def applyFilters (accounts : List Account) (filters : Filters)
    (favorites : List String) : List Account :=
  accounts.filter (accountMatches filters favorites)

/-- The filter contract as §4.3 of the spec words it, for comparison with
`accountMatches`: empty search always passes, otherwise some of the six
fields contains the search text case-insensitively; currency and purpose
need exact equality unless `"all"`; favorites-only requires membership. -/
def specAccountPasses (filters : Filters) (favorites : List String) (account : Account) : Prop :=
  (filters.search = "" ∨
    ∃ field ∈ searchableFields account,
      strIncludes (jsToLower field) (jsToLower filters.search) = true) ∧
  (filters.currency = "all" ∨ account.currency = filters.currency) ∧
  (filters.purpose = "all" ∨ account.purpose = filters.purpose) ∧
  (filters.favoritesOnly = true → account.id ∈ favorites)

/-- A raw record carrying every alias key `normalizeAccount` consults,
each with a distinct non-empty string value. -/
def c3record : RawRecord :=
  [("id", .str "id-lower"), ("ID", .str "ID-upper"),
   ("Bank", .str "Bank-upper"), ("bank", .str "bank-lower"),
   ("Title", .str "Title-upper"), ("title", .str "title-lower"),
   ("acc_no", .str "acc-1"), ("acct_no", .str "acc-2"), ("account_number", .str "acc-3"),
   ("iban", .str "iban-lower"), ("IBAN", .str "IBAN-upper"),
   ("currency", .str "cur-lower"), ("Currency", .str "Cur-upper"),
   ("purpose", .str "pur-lower"), ("Purpose", .str "Pur-upper"),
   ("note", .str "note-lower"), ("Note", .str "Note-upper")]

/-- A raw record populating only the first alias key of every field, the
`id` with a numeric value to exhibit type-copying. -/
def c5firstAliases : RawRecord :=
  [("id", .num "7"), ("Bank", .str "B1"), ("Title", .str "T1"), ("acc_no", .str "A1"),
   ("iban", .str "I1"), ("currency", .str "C1"), ("purpose", .str "P1"),
   ("note", .str "N1"), ("logo", .str "L1")]

/-- A raw record populating only the second alias key of every field. -/
def c5secondAliases : RawRecord :=
  [("ID", .str "id2"), ("bank", .str "b2"), ("title", .str "t2"), ("acct_no", .str "a2"),
   ("IBAN", .str "i2"), ("Currency", .str "c2"), ("Purpose", .str "p2"), ("Note", .str "n2")]

/-- A raw record populating only the third alias key of the account
number. -/
def c5thirdAliases : RawRecord :=
  [("account_number", .str "a3")]

/-! ## Helper lemmas -/

theorem getItem_setItem_self (st : Store) (k v : String) :
    getItem (setItem st k v) k = some v := by
  induction st with
  | nil => simp [setItem, getItem]
  | cons kv rest ih =>
    obtain ⟨k', v'⟩ := kv
    by_cases h : k' = k
    · simp [setItem, h, getItem]
    · simp [setItem, h, getItem, ih]

theorem getItem_setItem_ne (st : Store) (k v k' : String) (h : k ≠ k') :
    getItem (setItem st k v) k' = getItem st k' := by
  induction st with
  | nil => simp [setItem, getItem, h]
  | cons kv rest ih =>
    obtain ⟨k₀, v₀⟩ := kv
    by_cases h0 : k₀ = k
    · simp only [setItem, if_pos h0, getItem]
      rw [if_neg h, if_neg (by rw [h0]; exact h)]
    · simp only [setItem, if_neg h0, getItem]
      by_cases h1 : k₀ = k'
      · simp [h1]
      · simp [h1, ih]

theorem mem_removeFirst {l : List String} {a x : String}
    (h : x ∈ removeFirst l a) : x ∈ l := by
  induction l with
  | nil => exact absurd h (List.not_mem_nil x)
  | cons y ys ih =>
    by_cases hy : y = a
    · rw [removeFirst, if_pos hy] at h
      exact List.mem_cons_of_mem _ h
    · rw [removeFirst, if_neg hy] at h
      rcases List.mem_cons.mp h with h | h
      · exact h ▸ List.mem_cons_self _ _
      · exact List.mem_cons_of_mem _ (ih h)

theorem removeFirst_nodup {l : List String} {a : String}
    (h : l.Nodup) : (removeFirst l a).Nodup := by
  induction l with
  | nil => simp [removeFirst]
  | cons y ys ih =>
    rw [List.nodup_cons] at h
    by_cases hy : y = a
    · rw [removeFirst, if_pos hy]
      exact h.2
    · rw [removeFirst, if_neg hy, List.nodup_cons]
      exact ⟨fun hm => h.1 (mem_removeFirst hm), ih h.2⟩

theorem toggleFavorite_nodup {favs : List String} {a : String}
    (h : favs.Nodup) : (toggleFavorite favs a).Nodup := by
  unfold toggleFavorite
  by_cases hc : favs.contains a = true
  · simp only [hc, if_true]
    exact removeFirst_nodup h
  · simp only [hc, if_false, Bool.false_eq_true]
    rw [List.nodup_append]
    refine ⟨h, List.nodup_singleton a, fun x hx hx' => ?_⟩
    rw [List.mem_singleton] at hx'
    subst hx'
    exact hc (List.elem_iff.mpr hx)

theorem jsOr_present {b : JsValue} (a : JsValue)
    (hb : b.isUndef = false ∧ b.isNull = false) :
    (jsOr a b).isUndef = false ∧ (jsOr a b).isNull = false := by
  unfold jsOr
  by_cases h : jsTruthy a = true
  · cases a <;> simp_all [jsTruthy, JsValue.isUndef, JsValue.isNull]
  · simp [h, hb.1, hb.2]

theorem jsOrChain2_present (a b : JsValue) (d : String) :
    (jsOr a (jsOr b (JsValue.str d))).isUndef = false ∧
    (jsOr a (jsOr b (JsValue.str d))).isNull = false :=
  jsOr_present _ (jsOr_present _ ⟨rfl, rfl⟩)

theorem jsOrChain3_present (a b c : JsValue) (d : String) :
    (jsOr a (jsOr b (jsOr c (JsValue.str d)))).isUndef = false ∧
    (jsOr a (jsOr b (jsOr c (JsValue.str d)))).isNull = false :=
  jsOr_present _ (jsOr_present _ (jsOr_present _ ⟨rfl, rfl⟩))

theorem fieldsPresent_normalizeAccount (raw : RawRecord) (randId : String) :
    fieldsPresent (normalizeAccount raw randId) = true := by
  unfold fieldsPresent normalizeAccount
  simp only [Bool.and_eq_true, Bool.not_eq_true']
  repeat' apply And.intro
  all_goals
    first
      | exact (jsOrChain2_present _ _ _).1
      | exact (jsOrChain2_present _ _ _).2
      | exact (jsOrChain3_present _ _ _ _).1
      | exact (jsOrChain3_present _ _ _ _).2

theorem accountsAllPresent_normalizeAll (rs : List RawRecord) (rnd : Nat → String) :
    accountsAllPresent (normalizeAll rs rnd) = true := by
  induction rs generalizing rnd with
  | nil => rfl
  | cons r rest ih =>
    unfold normalizeAll accountsAllPresent
    rw [List.all_cons, fieldsPresent_normalizeAccount r (rnd 0), Bool.true_and]
    exact ih (fun i => rnd (i + 1))

theorem jsToLower_empty : jsToLower "" = "" := rfl

theorem jsToLower_data_ne {s : String} (h : s ≠ "") : (jsToLower s).data ≠ [] := by
  intro hc
  have hc' : s.data.map Char.toLower = [] := hc
  have hd : s.data = [] := by
    cases hs : s.data with
    | nil => rfl
    | cons a l =>
      rw [hs, List.map_cons] at hc'
      exact absurd hc' (List.cons_ne_nil _ _)
  exact h (String.ext hd)

theorem strIncludes_empty_hay {n : String} (h : n.data ≠ []) :
    strIncludes "" n = false := by
  show charsInfix n.data [] = false
  rw [charsInfix]
  cases hd : n.data with
  | nil => exact absurd hd h
  | cons a l => rfl

theorem searchAny_iff {search : String} (hs : search ≠ "") (fields : List String) :
    (fields.any (fun f => f != "" && strIncludes (jsToLower f) (jsToLower search))) = true ↔
    ∃ f ∈ fields, strIncludes (jsToLower f) (jsToLower search) = true := by
  rw [List.any_eq_true]
  constructor
  · rintro ⟨f, hf, hp⟩
    rw [Bool.and_eq_true] at hp
    exact ⟨f, hf, hp.2⟩
  · rintro ⟨f, hf, hp⟩
    refine ⟨f, hf, ?_⟩
    rw [Bool.and_eq_true]
    refine ⟨?_, hp⟩
    rw [bne_iff_ne]
    intro hfe
    rw [hfe, jsToLower_empty, strIncludes_empty_hay (jsToLower_data_ne hs)] at hp
    simp at hp

theorem isFavorite_iff (favorites : List String) (a : String) :
    isFavorite favorites a = true ↔ a ∈ favorites := by
  unfold isFavorite
  exact List.elem_iff

/-- The boolean predicate of `applyFilters` decides exactly the pass
condition §4.3 of the spec describes. -/
theorem accountMatches_iff (filters : Filters) (favorites : List String) (account : Account) :
    accountMatches filters favorites account = true ↔
    specAccountPasses filters favorites account := by
  have hsearch : (filters.search = "" ∨
      (searchableFields account).any
        (fun f => f != "" && strIncludes (jsToLower f) (jsToLower filters.search)) = true) ↔
      (filters.search = "" ∨
        ∃ f ∈ searchableFields account,
          strIncludes (jsToLower f) (jsToLower filters.search) = true) := by
    by_cases hs : filters.search = ""
    · simp [hs]
    · simp only [hs, false_or]
      exact searchAny_iff hs _
  have hfav : (filters.favoritesOnly = false ∨ isFavorite favorites account.id = true) ↔
      (filters.favoritesOnly = true → account.id ∈ favorites) := by
    rw [isFavorite_iff]
    cases filters.favoritesOnly <;> simp
  unfold accountMatches specAccountPasses
  simp only [Bool.and_eq_true, Bool.or_eq_true, beq_iff_eq, Bool.not_eq_true', and_assoc]
  exact and_congr hsearch (and_congr Iff.rfl (and_congr Iff.rfl hfav))

/-! ## The claims -/

/-- Claim C1, counterexample: the claim says a stored theme that is not
exactly `"light"` or `"dark"` falls back to the configured default, but
`initializeTheme` adopts the stored value `"purple"` unchanged, which is
neither valid literal nor the default. -/
theorem C1_counterexample :
    initializeTheme (some "purple") false = "purple" ∧
    ("purple" ≠ DEFAULT_THEME ∧ "purple" ≠ "light" ∧ "purple" ≠ "dark") :=
  ⟨rfl, by decide⟩

/-- Claim C1 as amended: loading the theme at startup returns the stored
value whenever it is non-empty — whether or not it is one of the two
valid literals — and falls back to the configured default only when no
value is stored or the stored value is the empty string. -/
theorem C1_theme_load_amended (s : String) (sysDark : Bool) (h : s ≠ "") :
    initializeTheme (some s) sysDark = s ∧
    initializeTheme none sysDark = DEFAULT_THEME ∧
    initializeTheme (some "") sysDark = DEFAULT_THEME := by
  refine ⟨?_, rfl, rfl⟩
  unfold initializeTheme
  simp [h]

/-- Claim C1 amended, witnessed at the stored value `"purple"`. -/
theorem C1_witness :
    initializeTheme (some "purple") false = "purple" ∧
    initializeTheme none false = DEFAULT_THEME ∧
    initializeTheme (some "") false = DEFAULT_THEME :=
  C1_theme_load_amended "purple" false (by decide)

/-- Claim C2, counterexample: `loadFavorites` performs no uniqueness (or
even shape) check, so a stored JSON array holding the same ID twice is
returned with the duplicate intact, violating the at-most-once
invariant. -/
theorem C2_counterexample :
    loadFavorites (some "[\"a\",\"a\"]") = JsValue.arr [JsValue.str "a", JsValue.str "a"] ∧
    ¬ (["a", "a"] : List String).Nodup :=
  ⟨rfl, by decide⟩

/-- Claim C2 as amended: any sequence of `toggleFavorite` calls starting
from a duplicate-free favorites sequence (in particular the empty one)
keeps every account ID occurring at most once; `loadFavorites`, by
contrast, returns whatever the stored JSON parses to and does not enforce
the invariant. -/
theorem C2_toggle_preserves_nodup (ops : List String) (init : List String)
    (h : init.Nodup) : (ops.foldl toggleFavorite init).Nodup := by
  induction ops generalizing init with
  | nil => exact h
  | cons op rest ih =>
    rw [List.foldl_cons]
    exact ih _ (toggleFavorite_nodup h)

/-- Claim C2 amended, witnessed on the toggle sequence a, b, a from the
empty favorites list. -/
theorem C2_witness : (List.foldl toggleFavorite [] ["a", "b", "a"]).Nodup :=
  C2_toggle_preserves_nodup ["a", "b", "a"] [] List.nodup_nil

/-- Claim C3, counterexample: with both `bank` (lowercase, the declared
key) and `Bank` (capitalized alias) present and truthy, `normalizeAccount`
takes `Bank` — the capitalized alias wins, contradicting the claim that
the declared lowercase key is consulted first. -/
theorem C3_counterexample :
    (normalizeAccount [("bank", JsValue.str "x"), ("Bank", JsValue.str "y")] "r").bank
      = JsValue.str "y" ∧
    (JsValue.str "y").isStr = true :=
  ⟨rfl, rfl⟩

/-- Claim C3 as amended: the first present non-falsy value in each
field's fixed priority order wins, but the order puts the CAPITALIZED
alias first for `bank` (`Bank` before `bank`) and `title` (`Title` before
`title`), while the lowercase key comes first for `id`, `acc_no`, `iban`,
`currency`, `purpose` and `note`. -/
theorem C3_alias_priority_amended (raw : RawRecord) (randId : String)
    (hBank : jsTruthy (jsGet raw "Bank") = true)
    (_hbank : jsTruthy (jsGet raw "bank") = true)
    (hTitle : jsTruthy (jsGet raw "Title") = true)
    (_htitle : jsTruthy (jsGet raw "title") = true)
    (hid : jsTruthy (jsGet raw "id") = true)
    (_hID : jsTruthy (jsGet raw "ID") = true)
    (hacc : jsTruthy (jsGet raw "acc_no") = true)
    (hiban : jsTruthy (jsGet raw "iban") = true)
    (_hIBAN : jsTruthy (jsGet raw "IBAN") = true)
    (hcur : jsTruthy (jsGet raw "currency") = true)
    (_hCur : jsTruthy (jsGet raw "Currency") = true)
    (hpur : jsTruthy (jsGet raw "purpose") = true)
    (_hPur : jsTruthy (jsGet raw "Purpose") = true)
    (hnote : jsTruthy (jsGet raw "note") = true)
    (_hNote : jsTruthy (jsGet raw "Note") = true) :
    (normalizeAccount raw randId).bank = jsGet raw "Bank" ∧
    (normalizeAccount raw randId).title = jsGet raw "Title" ∧
    (normalizeAccount raw randId).id = jsGet raw "id" ∧
    (normalizeAccount raw randId).acc_no = jsGet raw "acc_no" ∧
    (normalizeAccount raw randId).iban = jsGet raw "iban" ∧
    (normalizeAccount raw randId).currency = jsGet raw "currency" ∧
    (normalizeAccount raw randId).purpose = jsGet raw "purpose" ∧
    (normalizeAccount raw randId).note = jsGet raw "note" := by
  unfold normalizeAccount jsOr
  simp [hBank, hTitle, hid, hacc, hiban, hcur, hpur, hnote]

/-- Claim C3 amended, witnessed on a record carrying every alias key with
a distinct truthy value. -/
theorem C3_witness :
    (normalizeAccount c3record "r").bank = jsGet c3record "Bank" ∧
    (normalizeAccount c3record "r").title = jsGet c3record "Title" ∧
    (normalizeAccount c3record "r").id = jsGet c3record "id" ∧
    (normalizeAccount c3record "r").acc_no = jsGet c3record "acc_no" ∧
    (normalizeAccount c3record "r").iban = jsGet c3record "iban" ∧
    (normalizeAccount c3record "r").currency = jsGet c3record "currency" ∧
    (normalizeAccount c3record "r").purpose = jsGet c3record "purpose" ∧
    (normalizeAccount c3record "r").note = jsGet c3record "note" :=
  C3_alias_priority_amended c3record "r"
    rfl rfl rfl rfl rfl rfl rfl rfl rfl rfl rfl rfl rfl rfl rfl

/-- Claim C4, confirmed: from every starting store (no version, empty
version, same version, older or newer version) and whether or not an
exception interrupts the `try` block (`exc = some mid` hands the `catch`
block the intermediate state `mid`), `migrateLocalStorageData` terminates
with the current schema version recorded. -/
theorem C4_migration_records_version (st : Store) (exc : Option Store) :
    getItem (migrateLocalStorageData st exc) VERSION_KEY = some APP_VERSION := by
  cases exc with
  | some mid =>
    show getItem (migrateCatch mid) VERSION_KEY = some APP_VERSION
    unfold migrateCatch
    exact getItem_setItem_self _ _ _
  | none =>
    show getItem (migrateNormal st) VERSION_KEY = some APP_VERSION
    unfold migrateNormal
    cases h : getItem st VERSION_KEY with
    | none => exact getItem_setItem_self _ _ _
    | some v =>
      dsimp only
      by_cases h1 : v = ""
      · rw [if_pos h1]
        exact getItem_setItem_self _ _ _
      · by_cases h2 : v = APP_VERSION
        · rw [if_neg h1, if_pos h2, h, h2]
        · rw [if_neg h1, if_neg h2]
          exact getItem_setItem_self _ _ _

/-- Claim C5, counterexample: normalization copies a truthy raw value of
any type, so a numeric `id` yields a non-string canonical field,
refuting the claim that every field is of string type for every raw
record input. -/
theorem C5_counterexample :
    (normalizeAccount [("id", JsValue.num "5")] "r").id = JsValue.num "5" ∧
    ((normalizeAccount [("id", JsValue.num "5")] "r").id).isStr = false :=
  ⟨rfl, rfl⟩

/-- Claim C5 as amended: normalization is total and, for EVERY raw
record, every declared canonical field of its result is present and
neither `undefined` nor `null` (only `logo` may be `null`); each field is
the first non-falsy value of its alias chain copied verbatim — with its
own type — and is filled with its documented default exactly when every
alias key is absent or falsy. -/
theorem C5_normalize_total_amended (raw : RawRecord) (randId : String) :
    fieldsPresent (normalizeAccount raw randId) = true ∧
    (jsTruthy (jsGet raw "id") = true →
      (normalizeAccount raw randId).id = jsGet raw "id") ∧
    (jsTruthy (jsGet raw "id") = false → jsTruthy (jsGet raw "ID") = true →
      (normalizeAccount raw randId).id = jsGet raw "ID") ∧
    (jsTruthy (jsGet raw "id") = false → jsTruthy (jsGet raw "ID") = false →
      (normalizeAccount raw randId).id = JsValue.str randId) ∧
    (jsTruthy (jsGet raw "Bank") = true →
      (normalizeAccount raw randId).bank = jsGet raw "Bank") ∧
    (jsTruthy (jsGet raw "Bank") = false → jsTruthy (jsGet raw "bank") = true →
      (normalizeAccount raw randId).bank = jsGet raw "bank") ∧
    (jsTruthy (jsGet raw "Bank") = false → jsTruthy (jsGet raw "bank") = false →
      (normalizeAccount raw randId).bank = JsValue.str "Unknown Bank") ∧
    (jsTruthy (jsGet raw "Title") = true →
      (normalizeAccount raw randId).title = jsGet raw "Title") ∧
    (jsTruthy (jsGet raw "Title") = false → jsTruthy (jsGet raw "title") = true →
      (normalizeAccount raw randId).title = jsGet raw "title") ∧
    (jsTruthy (jsGet raw "Title") = false → jsTruthy (jsGet raw "title") = false →
      (normalizeAccount raw randId).title = JsValue.str "Account") ∧
    (jsTruthy (jsGet raw "acc_no") = true →
      (normalizeAccount raw randId).acc_no = jsGet raw "acc_no") ∧
    (jsTruthy (jsGet raw "acc_no") = false → jsTruthy (jsGet raw "acct_no") = true →
      (normalizeAccount raw randId).acc_no = jsGet raw "acct_no") ∧
    (jsTruthy (jsGet raw "acc_no") = false → jsTruthy (jsGet raw "acct_no") = false →
      jsTruthy (jsGet raw "account_number") = true →
      (normalizeAccount raw randId).acc_no = jsGet raw "account_number") ∧
    (jsTruthy (jsGet raw "acc_no") = false → jsTruthy (jsGet raw "acct_no") = false →
      jsTruthy (jsGet raw "account_number") = false →
      (normalizeAccount raw randId).acc_no = JsValue.str "") ∧
    (jsTruthy (jsGet raw "iban") = true →
      (normalizeAccount raw randId).iban = jsGet raw "iban") ∧
    (jsTruthy (jsGet raw "iban") = false → jsTruthy (jsGet raw "IBAN") = true →
      (normalizeAccount raw randId).iban = jsGet raw "IBAN") ∧
    (jsTruthy (jsGet raw "iban") = false → jsTruthy (jsGet raw "IBAN") = false →
      (normalizeAccount raw randId).iban = JsValue.str "") ∧
    (jsTruthy (jsGet raw "currency") = true →
      (normalizeAccount raw randId).currency = jsGet raw "currency") ∧
    (jsTruthy (jsGet raw "currency") = false → jsTruthy (jsGet raw "Currency") = true →
      (normalizeAccount raw randId).currency = jsGet raw "Currency") ∧
    (jsTruthy (jsGet raw "currency") = false → jsTruthy (jsGet raw "Currency") = false →
      (normalizeAccount raw randId).currency = JsValue.str "PKR") ∧
    (jsTruthy (jsGet raw "purpose") = true →
      (normalizeAccount raw randId).purpose = jsGet raw "purpose") ∧
    (jsTruthy (jsGet raw "purpose") = false → jsTruthy (jsGet raw "Purpose") = true →
      (normalizeAccount raw randId).purpose = jsGet raw "Purpose") ∧
    (jsTruthy (jsGet raw "purpose") = false → jsTruthy (jsGet raw "Purpose") = false →
      (normalizeAccount raw randId).purpose = JsValue.str "General") ∧
    (jsTruthy (jsGet raw "note") = true →
      (normalizeAccount raw randId).note = jsGet raw "note") ∧
    (jsTruthy (jsGet raw "note") = false → jsTruthy (jsGet raw "Note") = true →
      (normalizeAccount raw randId).note = jsGet raw "Note") ∧
    (jsTruthy (jsGet raw "note") = false → jsTruthy (jsGet raw "Note") = false →
      (normalizeAccount raw randId).note = JsValue.str "") ∧
    (jsTruthy (jsGet raw "logo") = true →
      (normalizeAccount raw randId).logo = jsGet raw "logo") ∧
    (jsTruthy (jsGet raw "logo") = false →
      (normalizeAccount raw randId).logo = JsValue.null) := by
  refine ⟨fieldsPresent_normalizeAccount raw randId, ?_, ?_, ?_, ?_, ?_, ?_, ?_, ?_, ?_,
    ?_, ?_, ?_, ?_, ?_, ?_, ?_, ?_, ?_, ?_, ?_, ?_, ?_, ?_, ?_, ?_, ?_, ?_⟩
  all_goals (intros; simp_all [normalizeAccount, jsOr])

/-- Claim C5 amended, witnessed: every copy, fall-through and default
clause exercised on concrete records — first-alias values copied (the
numeric `id` with its own type), second- and third-alias values reached
when earlier keys are absent, and every documented default produced by
the empty record. -/
theorem C5_witness :
    fieldsPresent (normalizeAccount [] "r") = true ∧
    (normalizeAccount c5firstAliases "r").id = jsGet c5firstAliases "id" ∧
    (normalizeAccount c5secondAliases "r").id = jsGet c5secondAliases "ID" ∧
    (normalizeAccount [] "r").id = JsValue.str "r" ∧
    (normalizeAccount c5firstAliases "r").bank = jsGet c5firstAliases "Bank" ∧
    (normalizeAccount c5secondAliases "r").bank = jsGet c5secondAliases "bank" ∧
    (normalizeAccount [] "r").bank = JsValue.str "Unknown Bank" ∧
    (normalizeAccount c5firstAliases "r").title = jsGet c5firstAliases "Title" ∧
    (normalizeAccount c5secondAliases "r").title = jsGet c5secondAliases "title" ∧
    (normalizeAccount [] "r").title = JsValue.str "Account" ∧
    (normalizeAccount c5firstAliases "r").acc_no = jsGet c5firstAliases "acc_no" ∧
    (normalizeAccount c5secondAliases "r").acc_no = jsGet c5secondAliases "acct_no" ∧
    (normalizeAccount c5thirdAliases "r").acc_no = jsGet c5thirdAliases "account_number" ∧
    (normalizeAccount [] "r").acc_no = JsValue.str "" ∧
    (normalizeAccount c5firstAliases "r").iban = jsGet c5firstAliases "iban" ∧
    (normalizeAccount c5secondAliases "r").iban = jsGet c5secondAliases "IBAN" ∧
    (normalizeAccount [] "r").iban = JsValue.str "" ∧
    (normalizeAccount c5firstAliases "r").currency = jsGet c5firstAliases "currency" ∧
    (normalizeAccount c5secondAliases "r").currency = jsGet c5secondAliases "Currency" ∧
    (normalizeAccount [] "r").currency = JsValue.str "PKR" ∧
    (normalizeAccount c5firstAliases "r").purpose = jsGet c5firstAliases "purpose" ∧
    (normalizeAccount c5secondAliases "r").purpose = jsGet c5secondAliases "Purpose" ∧
    (normalizeAccount [] "r").purpose = JsValue.str "General" ∧
    (normalizeAccount c5firstAliases "r").note = jsGet c5firstAliases "note" ∧
    (normalizeAccount c5secondAliases "r").note = jsGet c5secondAliases "Note" ∧
    (normalizeAccount [] "r").note = JsValue.str "" ∧
    (normalizeAccount c5firstAliases "r").logo = jsGet c5firstAliases "logo" ∧
    (normalizeAccount [] "r").logo = JsValue.null := by
  obtain ⟨e0, e1, e2, e3, e4, e5, e6, e7, e8, e9, e10, e11, e12, e13, e14, e15, e16, e17,
    e18, e19, e20, e21, e22, e23, e24, e25, e26, e27⟩ :=
    C5_normalize_total_amended [] "r"
  obtain ⟨f0, f1, f2, f3, f4, f5, f6, f7, f8, f9, f10, f11, f12, f13, f14, f15, f16, f17,
    f18, f19, f20, f21, f22, f23, f24, f25, f26, f27⟩ :=
    C5_normalize_total_amended c5firstAliases "r"
  obtain ⟨g0, g1, g2, g3, g4, g5, g6, g7, g8, g9, g10, g11, g12, g13, g14, g15, g16, g17,
    g18, g19, g20, g21, g22, g23, g24, g25, g26, g27⟩ :=
    C5_normalize_total_amended c5secondAliases "r"
  obtain ⟨k0, k1, k2, k3, k4, k5, k6, k7, k8, k9, k10, k11, k12, k13, k14, k15, k16, k17,
    k18, k19, k20, k21, k22, k23, k24, k25, k26, k27⟩ :=
    C5_normalize_total_amended c5thirdAliases "r"
  exact ⟨e0,
    f1 rfl, g2 rfl rfl, e3 rfl rfl,
    f4 rfl, g5 rfl rfl, e6 rfl rfl,
    f7 rfl, g8 rfl rfl, e9 rfl rfl,
    f10 rfl, g11 rfl rfl, k12 rfl rfl rfl, e13 rfl rfl rfl,
    f14 rfl, g15 rfl rfl, e16 rfl rfl,
    f17 rfl, g18 rfl rfl, e19 rfl rfl,
    f20 rfl, g21 rfl rfl, e22 rfl rfl,
    f23 rfl, g24 rfl rfl, e25 rfl rfl,
    f26 rfl, e27 rfl⟩

/-- Claim C6, counterexample: the stored string `"5"` parses successfully
as JSON, so `loadFavorites` returns the number `5` — not a sequence —
refuting the claim that the result is always a sequence of string IDs. -/
theorem C6_counterexample :
    loadFavorites (some "5") = JsValue.num "5" ∧
    (loadFavorites (some "5")).isArr = false :=
  ⟨rfl, rfl⟩

/-- Claim C6 as amended: `loadFavorites` returns the empty sequence when
the key is absent, the stored value is empty, or parsing fails, and
otherwise returns exactly the parsed JSON value, whatever its shape; the
store itself is only read (`loadFavoritesFromStore` consumes the store
and performs no write). -/
theorem C6_load_favorites_amended (s : String) :
    loadFavorites none = JsValue.arr [] ∧
    loadFavorites (some s) = (jsonParse s).getD (JsValue.arr []) := by
  refine ⟨rfl, ?_⟩
  unfold loadFavorites
  dsimp only
  by_cases h : s = ""
  · subst h
    rfl
  · rw [if_neg h]
    cases hp : jsonParse s <;> simp [hp]

/-- Claim C7, confirmed: an account is in the output of `applyFilters`
exactly when it is in the input and every active predicate passes — the
search predicate passing iff the text is empty or some of the six fields
contains it case-insensitively, currency and purpose requiring equality
unless `"all"`, and favorites-only requiring membership of the ID. -/
theorem C7_filter_characterization (accounts : List Account) (filters : Filters)
    (favorites : List String) (a : Account) :
    a ∈ applyFilters accounts filters favorites ↔
      a ∈ accounts ∧ specAccountPasses filters favorites a := by
  rw [applyFilters, List.mem_filter, accountMatches_iff]

/-- Claim C8, confirmed: with neutral criteria — empty search, currency
`"all"`, purpose `"all"`, favorites-only off — `applyFilters` returns its
input list unchanged, whatever the favorites. -/
theorem C8_identity_filter (accounts : List Account) (favorites : List String) :
    applyFilters accounts ⟨"", "all", "all", false⟩ favorites = accounts := by
  unfold applyFilters
  rw [List.filter_eq_self]
  intro a _
  simp [accountMatches]

/-- Claim C9, counterexample: on a load failure `app_backup.js` assigns
the raw sample records without normalizing them, so the record held
afterwards has no `bank` and no `note` canonical field at all. -/
theorem C9_counterexample :
    jsGet ((loadDataBackup .rejected (fun _ => "r")).headD []) "bank" = JsValue.undefined ∧
    jsGet ((loadDataBackup .rejected (fun _ => "r")).headD []) "note" = JsValue.undefined :=
  ⟨rfl, rfl⟩

/-- Claim C9 as amended: on every load failure (fetch rejection, non-ok
status, JSON parse error, non-array top level) `loadData` in `app.js`
substitutes the built-in fallback dataset passed through
`normalizeAccount`, so every held record has all canonical fields
populated; but the older `loadData` in `app_backup.js` substitutes the
raw, unnormalized sample records on the same failures. -/
theorem C9_fallback_amended (outcome : FetchOutcome) (rnd : Nat → String)
    (h : outcome.isFailure = true) :
    loadData outcome rnd = normalizeAll getSampleData rnd ∧
    accountsAllPresent (loadData outcome rnd) = true ∧
    loadDataBackup outcome rnd = getSampleData := by
  have hl : loadData outcome rnd = normalizeAll getSampleData rnd := by
    cases outcome with
    | rejected => rfl
    | badStatus s => rfl
    | jsonError => rfl
    | jsonOk v =>
      cases v with
      | arr elems => simp [FetchOutcome.isFailure, JsValue.isArr] at h
      | undefined => rfl
      | null => rfl
      | bool b => rfl
      | num n => rfl
      | str s => rfl
      | obj kvs => rfl
  have hb : loadDataBackup outcome rnd = getSampleData := by
    cases outcome with
    | rejected => rfl
    | badStatus s => rfl
    | jsonError => rfl
    | jsonOk v =>
      cases v with
      | arr elems => simp [FetchOutcome.isFailure, JsValue.isArr] at h
      | undefined => rfl
      | null => rfl
      | bool b => rfl
      | num n => rfl
      | str s => rfl
      | obj kvs => rfl
  exact ⟨hl, by rw [hl]; exact accountsAllPresent_normalizeAll _ _, hb⟩

/-- Claim C9 amended, witnessed at a rejected fetch. -/
theorem C9_witness :
    loadData .rejected (fun _ => "r") = normalizeAll getSampleData (fun _ => "r") ∧
    accountsAllPresent (loadData .rejected (fun _ => "r")) = true ∧
    loadDataBackup .rejected (fun _ => "r") = getSampleData :=
  C9_fallback_amended .rejected (fun _ => "r") rfl

/-- Claim C10, confirmed: when the stored version is non-empty, differs
from the current version and is not lexicographically below `"2.0"`
(e.g. `"3.0"`), an exception-free migration run writes the current
version and leaves the stored theme and favorites entries exactly as they
were — no validation, deletion or rewrite touches them. -/
theorem C10_newer_version_frame (st : Store) (v : String)
    (h : getItem st VERSION_KEY = some v) (h1 : v ≠ "") (h2 : v ≠ APP_VERSION)
    (h3 : jsStrLt v "2.0" = false) :
    getItem (migrateLocalStorageData st none) VERSION_KEY = some APP_VERSION ∧
    getItem (migrateLocalStorageData st none) THEME_KEY = getItem st THEME_KEY ∧
    getItem (migrateLocalStorageData st none) FAVORITES_KEY = getItem st FAVORITES_KEY := by
  have hred : migrateLocalStorageData st none = setItem st VERSION_KEY APP_VERSION := by
    show migrateNormal st = _
    unfold migrateNormal
    rw [h]
    dsimp only
    rw [if_neg h1, if_neg h2, h3]
    simp
  rw [hred]
  exact ⟨getItem_setItem_self _ _ _,
    getItem_setItem_ne _ _ _ _ (by decide),
    getItem_setItem_ne _ _ _ _ (by decide)⟩

/-- Claim C10, witnessed at a store holding version `"3.0"`, an invalid
theme and corrupt favorites JSON, none of which the migration touches. -/
theorem C10_witness :
    getItem (migrateLocalStorageData
      [("accounts:version", "3.0"), ("accounts:theme", "weird"), ("accounts:favs", "[1,")]
      none) VERSION_KEY = some APP_VERSION ∧
    getItem (migrateLocalStorageData
      [("accounts:version", "3.0"), ("accounts:theme", "weird"), ("accounts:favs", "[1,")]
      none) THEME_KEY =
      getItem [("accounts:version", "3.0"), ("accounts:theme", "weird"),
        ("accounts:favs", "[1,")] THEME_KEY ∧
    getItem (migrateLocalStorageData
      [("accounts:version", "3.0"), ("accounts:theme", "weird"), ("accounts:favs", "[1,")]
      none) FAVORITES_KEY =
      getItem [("accounts:version", "3.0"), ("accounts:theme", "weird"),
        ("accounts:favs", "[1,")] FAVORITES_KEY :=
  C10_newer_version_frame _ "3.0" rfl (by decide) (by decide) rfl

end App

